import Mathlib

/-!
Verification development for the `ubx_rtk_base` repository.

The Python sources are shallowly embedded:
  * Python `float` arithmetic is modelled exactly over `ℚ` (the reference
    numeric semantics of the spec); `math.modf` and the builtin banker's
    `round` are embedded as `rat_modf` and `round_half_to_even`;
  * Python strings are modelled as `String` or `List Char`;
  * exceptions become `Except` values, with one error constructor per
    distinct `raise` site;
  * blocking queues become explicit `List` states threaded through the
    functions, and the two background loops (the UBX frame reader loop and
    the RTCM3 TCP relay loop) are modelled as functions over the sequence
    of events each loop observes.
-/

namespace UbxRtkBase

/-! ## string_utils.py -/

/-- Embeds `string_utils.get_default_string_value`: substitute a default
(the empty string at every call site) for an absent optional string. -/
def get_default_string_value (optional_value : Option String)
    (default_value : String) : String :=
  match optional_value with
  | none => default_value
  | some s => s

/-! ## math_utils.py -/

/-- Truncation of a rational toward zero, the integer component produced by
Python's `math.modf`. -/
def rat_trunc (x : ℚ) : ℤ :=
  if 0 ≤ x then ⌊x⌋ else -⌊-x⌋

/-- Embeds Python `math.modf`: split a value into fractional and integer
components (returned in that order), both carrying the sign of the input. -/
def rat_modf (x : ℚ) : ℚ × ℚ :=
  (x - (rat_trunc x : ℚ), (rat_trunc x : ℚ))

/-- Embeds the Python builtin `round` on the exact rational model: round to
the nearest integer, resolving exact halves to the even neighbour. -/
def round_half_to_even (x : ℚ) : ℤ :=
  if x - (⌊x⌋ : ℚ) < 1 / 2 then ⌊x⌋
  else if 1 / 2 < x - (⌊x⌋ : ℚ) then ⌊x⌋ + 1
  else if 2 ∣ ⌊x⌋ then ⌊x⌋ else ⌊x⌋ + 1

/-- Embeds `math_utils.value_to_precision_integers`: scale the value, split
it with `math.modf`, and round the integer component and the scaled
fractional component to integers.  The Python defaults are
`scale_factor = 10 ** 7` and `decimal_places = 2`; call sites that rely on
the defaults pass these values explicitly here. -/
def value_to_precision_integers (value : ℚ) (scale_factor : ℤ)
    (decimal_places : ℕ) : ℤ × ℤ :=
  let scaled_value := value * (scale_factor : ℚ)
  let parts := rat_modf scaled_value
  (round_half_to_even parts.2, round_half_to_even (parts.1 * 10 ^ decimal_places))

/-- The Positioning Encoder as the specification words it (§4.1): multiply
the value by the scale factor, split the product into integer and
fractional components, round the integer component to the nearest integer,
and round `fractional * 10 ^ decimal_places` to the nearest integer as the
high-precision residual, all rounding half-to-even. -/
def positioning_encoder_spec (value : ℚ) (scale_factor : ℤ)
    (decimal_places : ℕ) : ℤ × ℤ :=
  let product := value * (scale_factor : ℚ)
  let integer_component : ℚ := (rat_trunc product : ℚ)
  let fractional_component : ℚ := product - integer_component
  (round_half_to_even integer_component,
   round_half_to_even (fractional_component * 10 ^ decimal_places))

/-! ## ubx_utils.py: device discovery -/

/-- A connected serial peripheral as reported by
`serial.tools.list_ports.comports`: the device path plus the optional
descriptor metadata inspected by `is_ublox_gnss_receiver`. -/
structure ListPortInfo where
  device : String
  manufacturer : Option String
  product : Option String
  description : Option String
deriving DecidableEq

/-- Embeds `ubx_utils.is_ublox_gnss_receiver`: the fixed vendor signature
match on manufacturer, product and description (absent fields default to
the empty string). -/
def is_ublox_gnss_receiver (port_info : ListPortInfo) : Bool :=
  get_default_string_value port_info.manufacturer "" == "u-blox AG - www.u-blox.com"
  && get_default_string_value port_info.product "" == "u-blox GNSS receiver"
  && get_default_string_value port_info.description "" == "u-blox GNSS receiver"

/-- Embeds `ubx_utils.get_ports_of_ublox_gnss_receiver` over an explicit
list of connected peripherals: keep the matching ones, project the device
path. -/
def get_ports_of_ublox_gnss_receiver (connected : List ListPortInfo) :
    List String :=
  (connected.filter is_ublox_gnss_receiver).map (fun x => x.device)

/-- Embeds `ubx_utils.get_default_ublox_gnss_receiver_baudrate`. -/
def get_default_ublox_gnss_receiver_baudrate : ℤ := 9600

/-- Embeds `ubx_utils.get_default_ublox_gnss_receiver_timeout` (seconds). -/
def get_default_ublox_gnss_receiver_timeout : ℚ := 1 / 10

/-- The one error raised by `get_ublox_gnss_receiver_serial` (the bare
`RuntimeError` at its zero-matches check). -/
inductive DeviceError
  | NoDeviceFound
deriving DecidableEq

/-- The arguments with which `serial.Serial` is opened. -/
structure SerialConfig where
  port : String
  baudrate : ℤ
  timeout : ℚ
deriving DecidableEq

/-- Embeds `ubx_utils.get_ublox_gnss_receiver_serial`: fail when no
connected peripheral matches the vendor signature, otherwise open the
first matching device path with the default baud rate and timeout. -/
def get_ublox_gnss_receiver_serial (connected : List ListPortInfo) :
    Except DeviceError SerialConfig :=
  let ublox_gnss_receiver_ports := get_ports_of_ublox_gnss_receiver connected
  match ublox_gnss_receiver_ports with
  | [] => .error .NoDeviceFound
  | p :: _ =>
    .ok ⟨p, get_default_ublox_gnss_receiver_baudrate,
      get_default_ublox_gnss_receiver_timeout⟩

/-! ## ubx_utils.py: command/acknowledgement correlation

`is_ack_message_correct` extracts the acknowledged message identity from
the string rendering of the acknowledgement frame with
`re.search("msgID=([A-Z]+-[A-Z]+)", ...)`.  The search is embedded
directly: try the pattern at each position from the left; at a position it
matches when the literal `msgID=` is followed by a non-empty run of
ASCII uppercase letters, a hyphen, and another non-empty run.  Because a
hyphen is not an uppercase letter, the greedy `[A-Z]+` pieces match
exactly the maximal uppercase runs, so no backtracking case is lost. -/

/-- One character of the `[A-Z]` class of the Python regex. -/
def isUpperAZ (c : Char) : Bool :=
  decide ('A' ≤ c) && decide (c ≤ 'Z')

/-- Split off the maximal leading run of `[A-Z]` characters. -/
def take_upper_run : List Char → List Char × List Char
  | [] => ([], [])
  | c :: rest =>
    if isUpperAZ c then
      let p := take_upper_run rest
      (c :: p.1, p.2)
    else ([], c :: rest)

/-- Match the capture group `([A-Z]+-[A-Z]+)` at the start of `s`. -/
def match_id_at (s : List Char) : Option (List Char) :=
  let p1 := take_upper_run s
  if p1.1 = [] then none
  else
    match p1.2 with
    | '-' :: rest2 =>
      let p2 := take_upper_run rest2
      if p2.1 = [] then none else some (p1.1 ++ '-' :: p2.1)
    | _ => none

/-- Try the whole pattern `msgID=([A-Z]+-[A-Z]+)` anchored at the start of
the list: the six literal characters, then the capture group. -/
def try_match_at (s : List Char) : Option (List Char) :=
  match s with
  | c1 :: c2 :: c3 :: c4 :: c5 :: c6 :: rest =>
    if c1 = 'm' ∧ c2 = 's' ∧ c3 = 'g' ∧ c4 = 'I' ∧ c5 = 'D' ∧ c6 = '=' then
      match_id_at rest
    else none
  | _ => none

/-- Embeds `re.search("msgID=([A-Z]+-[A-Z]+)", s)`: the capture group of
the leftmost match, if any. -/
def search_msg_id : List Char → Option (List Char)
  | [] => none
  | c :: rest =>
    match try_match_at (c :: rest) with
    | some g => some g
    | none => search_msg_id rest

/-- The two distinct failure sites of the correlator, named as the spec's
error taxonomy names them: `MalformedAck` is the `raise RuntimeError` when
the regex finds no match inside `is_ack_message_correct`; `AckMismatch` is
the `raise RuntimeError` in `send_message_to_ublox_gnss_receiver` when the
identity comparison fails. -/
inductive ProtocolError
  | AckMismatch
  | MalformedAck
deriving DecidableEq

/-- Embeds `ubx_utils.is_ack_message_correct` on the string rendering of
the acknowledgement frame: extract the acknowledged identity with the
regex (failing when there is no match) and compare it with the sent
message's identity.  The `IndexError` branch of the source is unreachable
(a successful match always has a group 1) and has no counterpart here. -/
def is_ack_message_correct (ack_message_string : List Char)
    (sent_message_identity : List Char) : Except ProtocolError Bool :=
  match search_msg_id ack_message_string with
  | none => .error .MalformedAck
  | some ack_message_identity =>
    .ok (sent_message_identity == ack_message_identity)

/-- An outbound UBX command: its identity string (used for correlation)
and its serialized byte form. -/
structure UBXCommand where
  identity : List Char
  serialized : List ℕ
deriving DecidableEq

/-- Embeds `ubx_utils.send_message_to_ublox_gnss_receiver`.  The shared
ack queue is threaded explicitly; `ack_queue.get()` on an empty queue
blocks forever, modelled as `none`.  Otherwise the result carries the
bytes written to the serial port, the outcome (success, or the error of
the failing raise site), and the remaining ack queue. -/
def send_message_to_ublox_gnss_receiver (message : UBXCommand)
    (ack_queue : List (List Char)) :
    Option (List ℕ × Except ProtocolError Unit × List (List Char)) :=
  match ack_queue with
  | [] => none
  | ack_message :: rest =>
    some (message.serialized,
      (match is_ack_message_correct ack_message message.identity with
       | .error e => .error e
       | .ok true => .ok ()
       | .ok false => .error .AckMismatch),
      rest)

/-- The string rendering the external codec (pyubx2) gives an
acknowledgement frame, e.g.
`<UBX(ACK-NAK, clsID=CFG, msgID=CFG-VALSET)>`: the frame's own identity is
the positive `ACK-ACK` or negative `ACK-NAK` variant, and the `msgID`
field names the acknowledged command.  Modelled from the codec's
documented rendering; the codec itself is an external collaborator. -/
def ublox_ack_frame_str (ack_variant : List Char)
    (acked_msg_identity : List Char) : List Char :=
  "<UBX(".data ++ ack_variant ++ ", clsID=CFG, msgID=".data
    ++ acked_msg_identity ++ ")>".data

/-! ## ubx_utils.py: frame reader loop -/

/-- A decoded inbound frame: one of the three wire protocols multiplexed
on the stream, tagged with the identity string the codec assigns it. -/
inductive Message
  | ubx (identity : String)
  | nmea (identity : String)
  | rtcm (identity : String)
deriving DecidableEq

/-- Embeds `ubx_utils.is_message_ublox_acknowledge`: a frame is an
acknowledgement exactly when it is a UBX message whose identity is
`ACK-ACK` or `ACK-NAK`. -/
def is_message_ublox_acknowledge (message : Message) : Bool :=
  match message with
  | .ubx identity => identity == "ACK-ACK" || identity == "ACK-NAK"
  | _ => false

/-- The outcome of one `ublox_reader.read()` call inside the loop:
a parsed frame, a falsy `parsed_data` (skipped by the `if parsed_data`
guard), or a decode failure — with `quitonerror = ERR_RAISE` the codec
raises on an unparseable frame. -/
inductive ReadOutcome
  | frame (m : Message)
  | empty
  | decode_error
deriving DecidableEq

/-- What a run of the reader loop did: acknowledgements pushed to the ack
queue, frames handed to the callback (both in arrival order), and whether
the loop was terminated by an uncaught decode exception. -/
structure ReaderResult where
  acks : List Message
  callback_calls : List Message
  err : Option Unit
deriving DecidableEq

/-- Embeds `ubx_utils.read_messages_from_ublox_gnss_receiver` over the
sequence of read outcomes the loop observes while the running queue is
non-empty and bytes are waiting.  The loop body has no exception handler,
so a raising `read()` (`quitonerror = ERR_RAISE`) propagates: the
remainder of the stream is never processed. -/
def read_messages_from_ublox_gnss_receiver :
    List ReadOutcome → ReaderResult
  | [] => ⟨[], [], none⟩
  | .decode_error :: _ => ⟨[], [], some ()⟩
  | .empty :: rest => read_messages_from_ublox_gnss_receiver rest
  | .frame m :: rest =>
    let r := read_messages_from_ublox_gnss_receiver rest
    if is_message_ublox_acknowledge m then
      ⟨m :: r.acks, r.callback_calls, r.err⟩
    else
      ⟨r.acks, m :: r.callback_calls, r.err⟩

/-- The parsed frames of a read-outcome stream, in arrival order. -/
def parsed_frames : List ReadOutcome → List Message
  | [] => []
  | .frame m :: rest => m :: parsed_frames rest
  | .empty :: rest => parsed_frames rest
  | .decode_error :: rest => parsed_frames rest

/-! ## ubx_utils.py: configuration command builders -/

/-- The configuration message `pyubx2.UBXMessage.config_set` is given:
the layers and transaction arguments and the ordered configuration-item
payload. -/
structure UBXConfigMessage where
  layers : ℤ
  transaction : ℤ
  cfgData : List (String × ℤ)
deriving DecidableEq

/-- Embeds `ubx_utils.get_configuration_ublox_message`: `layers = 7`,
`transaction = 0`, payload passed through in order. -/
def get_configuration_ublox_message (cfg_data : List (String × ℤ)) :
    UBXConfigMessage :=
  ⟨7, 0, cfg_data⟩

/-- Embeds `ubx_utils.get_default_accuracy_limit_millimeters`. -/
def get_default_accuracy_limit_millimeters : ℤ := 50000

/-- Embeds `ubx_utils.get_internal_accuracy_limit_value`. -/
def get_internal_accuracy_limit_value (accuracy_limit_millimeters : ℤ) : ℤ :=
  accuracy_limit_millimeters * 10

/-- Embeds the `Position` dataclass (exact rational model of the float
fields). -/
structure Position where
  latitude_degrees : ℚ
  longitude_degrees : ℚ
  altitude_meters : ℚ
deriving DecidableEq

/-- Embeds `ubx_utils.get_fixed_mode_for_ublox_gnss_receiver`: run the
Positioning Encoder on the altitude with scale `10 ** 2` and 1 decimal
place and on the latitude and longitude with the encoder defaults
(`10 ** 7`, 2 decimal places), then build the configuration payload in the
source's insertion order. -/
def get_fixed_mode_for_ublox_gnss_receiver (position : Position)
    (accuracy_limit_millimeters : ℤ) : UBXConfigMessage :=
  let altitude_parts :=
    value_to_precision_integers position.altitude_meters (10 ^ 2) 1
  let latitude_parts :=
    value_to_precision_integers position.latitude_degrees (10 ^ 7) 2
  let longitude_parts :=
    value_to_precision_integers position.longitude_degrees (10 ^ 7) 2
  get_configuration_ublox_message
    [("CFG_TMODE_MODE", 2),
     ("CFG_TMODE_POS_TYPE", 1),
     ("CFG_TMODE_FIXED_POS_ACC",
       get_internal_accuracy_limit_value accuracy_limit_millimeters),
     ("CFG_TMODE_HEIGHT", altitude_parts.1),
     ("CFG_TMODE_HEIGHT_HP", altitude_parts.2),
     ("CFG_TMODE_LAT", latitude_parts.1),
     ("CFG_TMODE_LAT_HP", latitude_parts.2),
     ("CFG_TMODE_LON", longitude_parts.1),
     ("CFG_TMODE_LON_HP", longitude_parts.2)]

/-! ## tcp_utils.py: RTCM3 correction relay

`start_rtcm3_tcp_server_streaming` accepts one consumer, drains (and
discards) whatever the correction queue holds at that moment, then loops:
while the running queue is non-empty, drain the correction queue and
`sendall` each block to the connection.

Concurrency is modelled by serializing the producer/controller events with
the relay's execution: after each external event (a block enqueued by the
producer, or the controller emptying the running queue) the relay runs
until it blocks again (its queue is drained, or it has observed the stop
and exited the outer loop).  Within this interleaving model the relay's
two nested `while` loops are embedded as the recursive drains below. -/

/-- A correction byte-block. -/
abbrev Block := List ℕ

/-- Embeds the backlog-discard loop
`while not rtcm3_bytes_queue.empty(): _ = rtcm3_bytes_queue.get()`. -/
def drain_rtcm3_queue : List Block → List Block
  | [] => []
  | _ :: rest => drain_rtcm3_queue rest

/-- Embeds the forwarding inner loop
`while not rtcm3_bytes_queue.empty(): b = get(); conn.sendall(b)`:
returns the remaining queue and the connection's written-block list. -/
def send_all_from_queue : List Block → List Block → List Block × List Block
  | [], written => ([], written)
  | b :: rest, written => send_all_from_queue rest (written ++ [b])

/-- The relay's observable state: the correction queue, the blocks written
to the accepted connection (each `sendall` writes one block fully), the
running flag (`running_queue` non-empty), and whether the relay's outer
loop has exited. -/
structure RelayState where
  rtcm3_queue : List Block
  written : List Block
  running : Bool
  exited : Bool
deriving DecidableEq

/-- Run the relay until it blocks: if it already exited nothing happens;
if the running flag still holds, the inner loop drains the queue into the
connection; otherwise the outer `while` condition fails and the relay
exits. -/
def relay_quiesce (s : RelayState) : RelayState :=
  if s.exited then s
  else if s.running then
    let p := send_all_from_queue s.rtcm3_queue s.written
    { s with rtcm3_queue := p.1, written := p.2 }
  else { s with exited := true }

/-- An external event interleaved with the relay: the producer enqueues a
correction block, or the controller empties the running queue (the stop
signal). -/
inductive RelayEv
  | enq (b : Block)
  | stop
deriving DecidableEq

/-- Apply one external event, then let the relay run until it blocks. -/
def relay_step (s : RelayState) (e : RelayEv) : RelayState :=
  match e with
  | .enq b => relay_quiesce { s with rtcm3_queue := s.rtcm3_queue ++ [b] }
  | .stop => relay_quiesce { s with running := false }

/-- The state right after `server.accept()` returns and the backlog-discard
loop has run: the pre-acceptance backlog is drained, nothing has been
written, the session is running. -/
def relay_accept (backlog : List Block) : RelayState :=
  { rtcm3_queue := drain_rtcm3_queue backlog
    written := []
    running := true
    exited := false }

/-- Embeds `tcp_utils.start_rtcm3_tcp_server_streaming` over the serialized
event sequence: accept with the given backlog queued, then process the
events. -/
def start_rtcm3_tcp_server_streaming (backlog : List Block)
    (events : List RelayEv) : RelayState :=
  events.foldl relay_step (relay_accept backlog)

/-- The blocks enqueued before the first stop event, in order: what the
claim says the accepted consumer must receive. -/
def blocks_before_stop : List RelayEv → List Block
  | [] => []
  | .enq b :: rest => b :: blocks_before_stop rest
  | .stop :: _ => []

/-! ## Theorems: the Positioning Encoder (claims C4, C6) -/

/-- Rounding an integer changes nothing. -/
theorem round_half_to_even_intCast (n : ℤ) :
    round_half_to_even (n : ℚ) = n := by
  unfold round_half_to_even
  rw [Int.floor_intCast]
  norm_num

/-- Half-to-even rounding is never off by more than one half. -/
theorem round_half_to_even_err (x : ℚ) :
    |((round_half_to_even x : ℤ) : ℚ) - x| ≤ 1 / 2 := by
  have h0 : (0:ℚ) ≤ x - (⌊x⌋ : ℚ) := by
    have h := Int.floor_le x
    linarith
  have h1 : x - (⌊x⌋ : ℚ) < 1 := by
    have h := Int.lt_floor_add_one x
    linarith
  unfold round_half_to_even
  split
  next h =>
    rw [abs_sub_comm, abs_of_nonneg h0]
    linarith
  next h =>
    split
    next h2 =>
      push_cast
      rw [abs_of_nonneg (by linarith)]
      linarith
    next h2 =>
      split
      next h3 =>
        rw [abs_sub_comm, abs_of_nonneg h0]
        linarith
      next h3 =>
        push_cast
        rw [abs_of_nonneg (by linarith)]
        linarith

/-- C4: for every value, scale factor and decimal-places count, the
encoder returns exactly the pair the spec's algorithm describes —
multiply by the scale factor, split into integer and fractional
components, round the integer component to the nearest integer (a no-op,
made explicit by the second conjunct: the standard part is the truncated
scaled value), and round `fractional * 10 ^ decimal_places` as the
high-precision residual — with exact halves resolved to the even
neighbour (third conjunct). -/
theorem spec_C4_positioning_encoder_algorithm (value : ℚ) (scale_factor : ℤ)
    (decimal_places : ℕ) :
    value_to_precision_integers value scale_factor decimal_places
      = positioning_encoder_spec value scale_factor decimal_places
  ∧ (value_to_precision_integers value scale_factor decimal_places).1
      = rat_trunc (value * (scale_factor : ℚ))
  ∧ ∀ n : ℤ, round_half_to_even ((n : ℚ) + 1 / 2) = if 2 ∣ n then n else n + 1 := by
  refine ⟨rfl, round_half_to_even_intCast _, ?_⟩
  intro n
  have hfl : ⌊(n : ℚ) + 1 / 2⌋ = n := by
    rw [add_comm, Int.floor_add_int]
    norm_num
  unfold round_half_to_even
  rw [hfl]
  norm_num

/-- C6: reconstructing `standard_part + high_precision_part / 10 ^
decimal_places` and dividing by the (positive) scale factor reproduces
the input value to within `10 ^ (-decimal_places) / scale_factor`. -/
theorem spec_C6_encoder_reconstruction (value : ℚ) (scale_factor : ℤ)
    (decimal_places : ℕ) (h : 0 < scale_factor) :
    |(((value_to_precision_integers value scale_factor decimal_places).1 : ℚ)
        + ((value_to_precision_integers value scale_factor decimal_places).2 : ℚ)
          / 10 ^ decimal_places) / (scale_factor : ℚ) - value|
      ≤ 1 / (10 ^ decimal_places * (scale_factor : ℚ)) := by
  have hS : (0:ℚ) < (scale_factor : ℚ) := by exact_mod_cast h
  have hT : (0:ℚ) < (10 : ℚ) ^ decimal_places := by positivity
  have hTS : (0:ℚ) < 10 ^ decimal_places * (scale_factor : ℚ) := mul_pos hT hS
  have h1 : (value_to_precision_integers value scale_factor decimal_places).1
      = rat_trunc (value * (scale_factor : ℚ)) := round_half_to_even_intCast _
  have h2 : (value_to_precision_integers value scale_factor decimal_places).2
      = round_half_to_even ((value * (scale_factor : ℚ)
          - (rat_trunc (value * (scale_factor : ℚ)) : ℚ)) * 10 ^ decimal_places) := rfl
  rw [h1, h2]
  have key : |((round_half_to_even ((value * (scale_factor : ℚ)
        - (rat_trunc (value * (scale_factor : ℚ)) : ℚ)) * 10 ^ decimal_places) : ℤ) : ℚ)
        - (value * (scale_factor : ℚ)
        - (rat_trunc (value * (scale_factor : ℚ)) : ℚ)) * 10 ^ decimal_places| ≤ 1 / 2 :=
    round_half_to_even_err _
  have hexpand : (((rat_trunc (value * (scale_factor : ℚ)) : ℤ) : ℚ)
        + ((round_half_to_even ((value * (scale_factor : ℚ)
            - (rat_trunc (value * (scale_factor : ℚ)) : ℚ)) * 10 ^ decimal_places) : ℤ) : ℚ)
          / 10 ^ decimal_places) / (scale_factor : ℚ) - value
      = (((round_half_to_even ((value * (scale_factor : ℚ)
            - (rat_trunc (value * (scale_factor : ℚ)) : ℚ)) * 10 ^ decimal_places) : ℤ) : ℚ)
          - (value * (scale_factor : ℚ)
            - (rat_trunc (value * (scale_factor : ℚ)) : ℚ)) * 10 ^ decimal_places)
          / (10 ^ decimal_places * (scale_factor : ℚ)) := by
    field_simp
    ring
  rw [hexpand, abs_div, abs_of_pos hTS]
  exact (div_le_div_iff_of_pos_right hTS).mpr (key.trans (by norm_num))

/-- C6 witness: the positive scale hypothesis holds at the repository's
pinned test latitude with the encoder defaults, and the reconstruction
bound follows. -/
theorem spec_C6_encoder_reconstruction_witness :
    0 < (10 ^ 7 : ℤ)
  ∧ |(((value_to_precision_integers (486467596667 / 10 ^ 10 : ℚ) (10 ^ 7) 2).1 : ℚ)
        + ((value_to_precision_integers (486467596667 / 10 ^ 10 : ℚ) (10 ^ 7) 2).2 : ℚ)
          / 10 ^ 2) / ((10 ^ 7 : ℤ) : ℚ) - (486467596667 / 10 ^ 10 : ℚ)|
      ≤ 1 / (10 ^ 2 * ((10 ^ 7 : ℤ) : ℚ)) :=
  ⟨by decide,
   spec_C6_encoder_reconstruction (486467596667 / 10 ^ 10 : ℚ) (10 ^ 7) 2 (by decide)⟩

/-! ## Theorems: device discovery (claims C7, C10) -/

/-- `get_ublox_gnss_receiver_serial` characterized by the filtered port
list. -/
theorem get_ublox_gnss_receiver_serial_eq (connected : List ListPortInfo) :
    get_ublox_gnss_receiver_serial connected
      = match connected.filter is_ublox_gnss_receiver with
        | [] => .error .NoDeviceFound
        | p :: _ => .ok ⟨p.device, 9600, 1 / 10⟩ := by
  unfold get_ublox_gnss_receiver_serial get_ports_of_ublox_gnss_receiver
  cases connected.filter is_ublox_gnss_receiver with
  | nil => rfl
  | cons p rest => rfl

/-- C7: opening the device transport fails with the `NoDeviceFound` error
exactly when zero connected peripherals match the fixed vendor signature;
otherwise the first matching peripheral is opened at baud rate 9600 with
read timeout 1/10 of a second (100 ms). -/
theorem spec_C7_transport_open_first_match (connected : List ListPortInfo) :
    (get_ublox_gnss_receiver_serial connected = .error .NoDeviceFound
       ↔ ∀ p ∈ connected, is_ublox_gnss_receiver p = false)
  ∧ ∀ p rest, connected.filter is_ublox_gnss_receiver = p :: rest →
      get_ublox_gnss_receiver_serial connected = .ok ⟨p.device, 9600, 1 / 10⟩ := by
  have hchar := get_ublox_gnss_receiver_serial_eq connected
  constructor
  · constructor
    · intro he p hp
      by_contra hne
      have htrue : is_ublox_gnss_receiver p = true := by
        cases hb : is_ublox_gnss_receiver p
        · exact absurd hb hne
        · rfl
      have hmem : p ∈ connected.filter is_ublox_gnss_receiver :=
        List.mem_filter.mpr ⟨hp, htrue⟩
      cases hf : connected.filter is_ublox_gnss_receiver with
      | nil =>
        rw [hf] at hmem
        exact absurd hmem (List.not_mem_nil p)
      | cons q qs =>
        rw [hchar, hf] at he
        exact Except.noConfusion he
    · intro hall
      have hf : connected.filter is_ublox_gnss_receiver = [] :=
        List.filter_eq_nil_iff.mpr (fun a ha => by simp [hall a ha])
      rw [hchar, hf]
  · intro p rest hf
    rw [hchar, hf]

/-- C7 witness: with one non-matching and one matching peripheral
connected, the filter keeps exactly the matching one and the transport
opens its device path at 9600 baud with the 100 ms timeout. -/
theorem spec_C7_transport_open_first_match_witness :
    ([⟨"/dev/ttyUSB0", none, none, none⟩,
      ⟨"/dev/ttyACM0", some "u-blox AG - www.u-blox.com",
        some "u-blox GNSS receiver", some "u-blox GNSS receiver"⟩]
        : List ListPortInfo).filter is_ublox_gnss_receiver
      = [⟨"/dev/ttyACM0", some "u-blox AG - www.u-blox.com",
          some "u-blox GNSS receiver", some "u-blox GNSS receiver"⟩]
  ∧ get_ublox_gnss_receiver_serial
      [⟨"/dev/ttyUSB0", none, none, none⟩,
       ⟨"/dev/ttyACM0", some "u-blox AG - www.u-blox.com",
         some "u-blox GNSS receiver", some "u-blox GNSS receiver"⟩]
      = .ok ⟨"/dev/ttyACM0", 9600, 1 / 10⟩ :=
  ⟨by decide,
   (spec_C7_transport_open_first_match
      [⟨"/dev/ttyUSB0", none, none, none⟩,
       ⟨"/dev/ttyACM0", some "u-blox AG - www.u-blox.com",
         some "u-blox GNSS receiver", some "u-blox GNSS receiver"⟩]).2
     ⟨"/dev/ttyACM0", some "u-blox AG - www.u-blox.com",
       some "u-blox GNSS receiver", some "u-blox GNSS receiver"⟩ [] (by decide)⟩

/-- C10: a peripheral with any absent descriptor field is never selected:
the absent field is substituted with the empty string (second conjunct)
and the vendor-signature predicate rejects it. -/
theorem spec_C10_absent_descriptor_rejected (p : ListPortInfo)
    (h : p.manufacturer = none ∨ p.product = none ∨ p.description = none) :
    is_ublox_gnss_receiver p = false ∧ get_default_string_value none "" = "" := by
  refine ⟨?_, rfl⟩
  rcases h with h | h | h <;>
    simp [is_ublox_gnss_receiver, get_default_string_value, h]

/-- C10 witness: a peripheral with an absent manufacturer field and
otherwise matching metadata is rejected. -/
theorem spec_C10_absent_descriptor_rejected_witness :
    ((⟨"/dev/ttyUSB1", none, some "u-blox GNSS receiver",
        some "u-blox GNSS receiver"⟩ : ListPortInfo).manufacturer = none
      ∨ (⟨"/dev/ttyUSB1", none, some "u-blox GNSS receiver",
          some "u-blox GNSS receiver"⟩ : ListPortInfo).product = none
      ∨ (⟨"/dev/ttyUSB1", none, some "u-blox GNSS receiver",
          some "u-blox GNSS receiver"⟩ : ListPortInfo).description = none)
  ∧ (is_ublox_gnss_receiver ⟨"/dev/ttyUSB1", none, some "u-blox GNSS receiver",
        some "u-blox GNSS receiver"⟩ = false
     ∧ get_default_string_value none "" = "") :=
  ⟨Or.inl rfl, spec_C10_absent_descriptor_rejected _ (Or.inl rfl)⟩

/-! ## Theorems: the frame reader loop (claims C5, C2) -/

/-- On an error-free read stream the loop routes every acknowledgement to
the ack queue and every other frame to the callback, both in arrival
order, and terminates without an exception. -/
theorem read_messages_ok_characterization (stream : List ReadOutcome)
    (h : ReadOutcome.decode_error ∉ stream) :
    read_messages_from_ublox_gnss_receiver stream
      = ⟨(parsed_frames stream).filter is_message_ublox_acknowledge,
         (parsed_frames stream).filter (fun m => ! is_message_ublox_acknowledge m),
         none⟩ := by
  revert h
  induction stream with
  | nil => intro h; rfl
  | cons o rest ih =>
    intro h
    have hrest := ih (fun hr => h (List.mem_cons_of_mem _ hr))
    cases o with
    | decode_error => exact absurd (List.mem_cons_self _ _) h
    | empty =>
      simpa [read_messages_from_ublox_gnss_receiver, parsed_frames] using hrest
    | frame m =>
      by_cases hm : is_message_ublox_acknowledge m = true
      · simp [read_messages_from_ublox_gnss_receiver, parsed_frames,
          List.filter_cons, hm, hrest]
      · rw [Bool.not_eq_true] at hm
        simp [read_messages_from_ublox_gnss_receiver, parsed_frames,
          List.filter_cons, hm, hrest]

/-- C5: a decoded frame is classified as an acknowledgement exactly when
it is a UBX message whose identity is `ACK-ACK` or `ACK-NAK` (first
conjunct); on an error-free stream the acknowledgements are pushed to the
ack queue and every other frame goes to the callback, both in arrival
order, and the loop is not terminated by an exception. -/
theorem spec_C5_ack_classification_and_routing (stream : List ReadOutcome)
    (h : ReadOutcome.decode_error ∉ stream) :
    (∀ m : Message, is_message_ublox_acknowledge m = true ↔
        ∃ id, m = .ubx id ∧ (id = "ACK-ACK" ∨ id = "ACK-NAK"))
  ∧ (read_messages_from_ublox_gnss_receiver stream).acks
      = (parsed_frames stream).filter is_message_ublox_acknowledge
  ∧ (read_messages_from_ublox_gnss_receiver stream).callback_calls
      = (parsed_frames stream).filter (fun m => ! is_message_ublox_acknowledge m)
  ∧ (read_messages_from_ublox_gnss_receiver stream).err = none := by
  have hc := read_messages_ok_characterization stream h
  refine ⟨?_, by rw [hc], by rw [hc], by rw [hc]⟩
  intro m
  cases m <;> simp [is_message_ublox_acknowledge]

/-- C5 witness: a concrete error-free stream holding both acknowledgement
variants, an NMEA frame and an RTCM frame. -/
theorem spec_C5_ack_classification_and_routing_witness :
    (ReadOutcome.decode_error ∉
      [ReadOutcome.frame (.ubx "ACK-ACK"), ReadOutcome.frame (.nmea "GNGGA"),
       ReadOutcome.frame (.ubx "ACK-NAK"), ReadOutcome.frame (.rtcm "1005")])
  ∧ (∀ m : Message, is_message_ublox_acknowledge m = true ↔
        ∃ id, m = .ubx id ∧ (id = "ACK-ACK" ∨ id = "ACK-NAK"))
  ∧ (read_messages_from_ublox_gnss_receiver
      [.frame (.ubx "ACK-ACK"), .frame (.nmea "GNGGA"),
       .frame (.ubx "ACK-NAK"), .frame (.rtcm "1005")]).acks
      = (parsed_frames
          [.frame (.ubx "ACK-ACK"), .frame (.nmea "GNGGA"),
           .frame (.ubx "ACK-NAK"), .frame (.rtcm "1005")]).filter
          is_message_ublox_acknowledge
  ∧ (read_messages_from_ublox_gnss_receiver
      [.frame (.ubx "ACK-ACK"), .frame (.nmea "GNGGA"),
       .frame (.ubx "ACK-NAK"), .frame (.rtcm "1005")]).callback_calls
      = (parsed_frames
          [.frame (.ubx "ACK-ACK"), .frame (.nmea "GNGGA"),
           .frame (.ubx "ACK-NAK"), .frame (.rtcm "1005")]).filter
          (fun m => ! is_message_ublox_acknowledge m)
  ∧ (read_messages_from_ublox_gnss_receiver
      [.frame (.ubx "ACK-ACK"), .frame (.nmea "GNGGA"),
       .frame (.ubx "ACK-NAK"), .frame (.rtcm "1005")]).err = none :=
  ⟨by decide,
   spec_C5_ack_classification_and_routing
     [.frame (.ubx "ACK-ACK"), .frame (.nmea "GNGGA"),
      .frame (.ubx "ACK-NAK"), .frame (.rtcm "1005")] (by decide)⟩

/-- C2 counterexample: with a malformed frame between two well-formed RTCM
data frames, the loop (built with `quitonerror = ERR_RAISE` and no
exception handler) delivers only the first frame and terminates with the
uncaught decode error, so the two well-formed frames are not both
delivered as the claim requires. -/
theorem spec_C2_counterexample :
    (read_messages_from_ublox_gnss_receiver
        [.frame (.rtcm "1005"), .decode_error, .frame (.rtcm "1077")]).callback_calls
      ≠ [.rtcm "1005", .rtcm "1077"]
  ∧ read_messages_from_ublox_gnss_receiver
      [.frame (.rtcm "1005"), .decode_error, .frame (.rtcm "1077")]
      = ⟨[], [.rtcm "1005"], some ()⟩ := by
  exact ⟨by decide, by decide⟩

/-- C2 amended: a decoding failure terminates the loop.  Frames read
before the malformed frame are routed normally; the decode exception
propagates and everything after the malformed frame is never processed. -/
theorem spec_C2_amended_decode_error_terminates (pre post : List ReadOutcome)
    (h : ReadOutcome.decode_error ∉ pre) :
    read_messages_from_ublox_gnss_receiver (pre ++ .decode_error :: post)
      = ⟨(read_messages_from_ublox_gnss_receiver pre).acks,
         (read_messages_from_ublox_gnss_receiver pre).callback_calls,
         some ()⟩ := by
  revert h
  induction pre with
  | nil => intro h; rfl
  | cons o rest ih =>
    intro h
    have hrest := ih (fun hr => h (List.mem_cons_of_mem _ hr))
    cases o with
    | decode_error => exact absurd (List.mem_cons_self _ _) h
    | empty =>
      simpa [read_messages_from_ublox_gnss_receiver] using hrest
    | frame m =>
      by_cases hm : is_message_ublox_acknowledge m = true
      · simp [read_messages_from_ublox_gnss_receiver, hm, hrest]
      · rw [Bool.not_eq_true] at hm
        simp [read_messages_from_ublox_gnss_receiver, hm, hrest]

/-- C2 amended witness: one well-formed frame before and one after the
malformed frame. -/
theorem spec_C2_amended_decode_error_terminates_witness :
    (ReadOutcome.decode_error ∉ [ReadOutcome.frame (.rtcm "1005")])
  ∧ read_messages_from_ublox_gnss_receiver
      ([ReadOutcome.frame (.rtcm "1005")]
        ++ .decode_error :: [ReadOutcome.frame (.rtcm "1077")])
      = ⟨(read_messages_from_ublox_gnss_receiver [.frame (.rtcm "1005")]).acks,
         (read_messages_from_ublox_gnss_receiver
            [.frame (.rtcm "1005")]).callback_calls,
         some ()⟩ :=
  ⟨by decide,
   spec_C2_amended_decode_error_terminates
     [.frame (.rtcm "1005")] [.frame (.rtcm "1077")] (by decide)⟩

/-! ## Theorems: command/acknowledgement correlation (claims C1, C9) -/

/-- C1: with an acknowledgement frame available on the ack channel, a send
writes the command's bytes and consumes exactly that one frame (the
remaining queue is `rest` in every outcome, so no entry is left unconsumed
on success and no second entry is touched on failure); it succeeds exactly
when the identity the regex extracts from the frame equals the sent
command's identity, fails at the malformed-ack raise site exactly when no
identity can be extracted, and fails at the mismatch raise site exactly
when an identity is extracted but differs. -/
theorem spec_C1_send_ack_correlation (message : UBXCommand)
    (ack_message : List Char) (rest : List (List Char)) :
    ∃ out : Except ProtocolError Unit,
      send_message_to_ublox_gnss_receiver message (ack_message :: rest)
        = some (message.serialized, out, rest)
    ∧ (out = .ok () ↔ search_msg_id ack_message = some message.identity)
    ∧ (out = .error .MalformedAck ↔ search_msg_id ack_message = none)
    ∧ (out = .error .AckMismatch ↔
        ∃ g, search_msg_id ack_message = some g ∧ g ≠ message.identity) := by
  cases hs : search_msg_id ack_message with
  | none =>
    refine ⟨.error .MalformedAck, ?_, by simp [hs], by simp [hs], by simp [hs]⟩
    simp [send_message_to_ublox_gnss_receiver, is_ack_message_correct, hs]
  | some g =>
    by_cases hg : message.identity = g
    · refine ⟨.ok (), ?_, ?_, by simp [hs], ?_⟩
      · simp [send_message_to_ublox_gnss_receiver, is_ack_message_correct, hs, hg]
      · simp [hs, hg]
      · simp [hs, hg]
    · have hb : (message.identity == g) = false := beq_eq_false_iff_ne.mpr hg
      refine ⟨.error .AckMismatch, ?_, ?_, by simp [hs], ?_⟩
      · simp [send_message_to_ublox_gnss_receiver, is_ack_message_correct, hs, hb]
      · simp only [hs, Option.some.injEq]
        exact iff_of_false (by simp) (fun hgid => hg hgid.symm)
      · simp only [hs, Option.some.injEq]
        constructor
        · intro _
          exact ⟨g, rfl, fun hgid => hg hgid.symm⟩
        · intro _
          trivial

/-- The greedy `[A-Z]+` piece: on a run of uppercase letters followed by a
non-uppercase character (or the end), it takes exactly the run. -/
theorem take_upper_run_append (u rest : List Char)
    (hu : ∀ c ∈ u, isUpperAZ c = true)
    (hrest : ∀ c, rest.head? = some c → isUpperAZ c = false) :
    take_upper_run (u ++ rest) = (u, rest) := by
  induction u with
  | nil =>
    cases rest with
    | nil => rfl
    | cons r rrest =>
      have hr : isUpperAZ r = false := hrest r rfl
      simp [take_upper_run, hr]
  | cons c u2 ih =>
    have hc : isUpperAZ c = true := hu c (List.mem_cons_self _ _)
    have ih2 := ih (fun d hd => hu d (List.mem_cons_of_mem _ hd))
    simp [take_upper_run, hc, ih2]

/-- The capture group `([A-Z]+-[A-Z]+)` at the start of
`u1 ++ "-" ++ u2 ++ tail` captures exactly `u1 ++ "-" ++ u2` when the two
runs are non-empty uppercase and the tail does not continue the second
run. -/
theorem match_id_at_eval (u1 u2 tail : List Char)
    (h1 : u1 ≠ []) (hu1 : ∀ c ∈ u1, isUpperAZ c = true)
    (h2 : u2 ≠ []) (hu2 : ∀ c ∈ u2, isUpperAZ c = true)
    (htail : ∀ c, tail.head? = some c → isUpperAZ c = false) :
    match_id_at (u1 ++ '-' :: (u2 ++ tail)) = some (u1 ++ '-' :: u2) := by
  have hd : ∀ c, (('-' :: (u2 ++ tail)).head? = some c) → isUpperAZ c = false := by
    intro c hc
    have h' : some '-' = some c := hc
    injection h' with h2
    rw [← h2]
    decide
  have e1 := take_upper_run_append u1 ('-' :: (u2 ++ tail)) hu1 hd
  have e2 := take_upper_run_append u2 tail hu2 htail
  unfold match_id_at
  rw [e1]
  simp [h1, e2, h2]

/-- A position whose first character is not `m` cannot start a match. -/
theorem try_match_at_ne_m (c : Char) (t : List Char) (hc : c ≠ 'm') :
    try_match_at (c :: t) = none := by
  cases t with
  | nil => rfl
  | cons c2 t2 =>
    cases t2 with
    | nil => rfl
    | cons c3 t3 =>
      cases t3 with
      | nil => rfl
      | cons c4 t4 =>
        cases t4 with
        | nil => rfl
        | cons c5 t5 =>
          cases t5 with
          | nil => rfl
          | cons c6 t6 =>
            simp only [try_match_at]
            rw [if_neg]
            intro hand
            exact hc hand.1

/-- The leftmost search skips over any text containing no `m`. -/
theorem search_msg_id_append_no_m (pre s : List Char) (h : 'm' ∉ pre) :
    search_msg_id (pre ++ s) = search_msg_id s := by
  induction pre with
  | nil => rfl
  | cons c pre2 ih =>
    have hc : c ≠ 'm' := fun hcm => h (hcm ▸ List.mem_cons_self _ _)
    have ih2 := ih (fun hm => h (List.mem_cons_of_mem _ hm))
    simp only [List.cons_append, search_msg_id]
    rw [try_match_at_ne_m c _ hc]
    exact ih2

/-- At the `msgID=` literal itself the search returns whatever the capture
group matches. -/
theorem search_msg_id_at_literal (rest g : List Char)
    (h : match_id_at rest = some g) :
    search_msg_id ('m' :: 's' :: 'g' :: 'I' :: 'D' :: '=' :: rest) = some g := by
  have hTM : try_match_at ('m' :: 's' :: 'g' :: 'I' :: 'D' :: '=' :: rest) = some g := by
    show (if 'm' = 'm' ∧ 's' = 's' ∧ 'g' = 'g' ∧ 'I' = 'I' ∧ 'D' = 'D' ∧ '=' = '='
        then match_id_at rest else none) = some g
    rw [if_pos ⟨rfl, rfl, rfl, rfl, rfl, rfl⟩]
    exact h
  simp only [search_msg_id]
  rw [hTM]

/-- C9: for a sent command whose identity has the well-formed
`[A-Z]+-[A-Z]+` shape, an acknowledgement frame whose `msgID` field names
that identity makes the send succeed regardless of whether the frame is
the positive `ACK-ACK` or the negative `ACK-NAK` variant: the correlator
extracts and compares identities only, so a device rejection is
indistinguishable from a confirmation at the send interface. -/
theorem spec_C9_nak_indistinguishable_from_ack (u1 u2 : List Char)
    (serialized : List ℕ) (variant : List Char) (rest : List (List Char))
    (h1 : u1 ≠ []) (hu1 : ∀ c ∈ u1, isUpperAZ c = true)
    (h2 : u2 ≠ []) (hu2 : ∀ c ∈ u2, isUpperAZ c = true)
    (hv : variant = "ACK-ACK".data ∨ variant = "ACK-NAK".data) :
    send_message_to_ublox_gnss_receiver ⟨u1 ++ '-' :: u2, serialized⟩
      (ublox_ack_frame_str variant (u1 ++ '-' :: u2) :: rest)
      = some (serialized, .ok (), rest) := by
  have hclose : ∀ c, (([')', '>'] : List Char).head? = some c) → isUpperAZ c = false := by
    intro c hc
    have h' : some ')' = some c := hc
    injection h' with h3
    rw [← h3]
    decide
  have hmid := match_id_at_eval u1 u2 [')', '>'] h1 hu1 h2 hu2 hclose
  have hlit := search_msg_id_at_literal (u1 ++ '-' :: (u2 ++ [')', '>']))
    (u1 ++ '-' :: u2) hmid
  have hsearch : search_msg_id (ublox_ack_frame_str variant (u1 ++ '-' :: u2))
      = some (u1 ++ '-' :: u2) := by
    rcases hv with hv | hv <;> subst hv
    · have hskip := search_msg_id_append_no_m
        ['<','U','B','X','(','A','C','K','-','A','C','K',',',' ','c','l','s','I','D','=','C','F','G',',',' ']
        ('m' :: 's' :: 'g' :: 'I' :: 'D' :: '=' :: (u1 ++ '-' :: (u2 ++ [')', '>'])))
        (by decide)
      have harr : ublox_ack_frame_str "ACK-ACK".data (u1 ++ '-' :: u2)
          = ['<','U','B','X','(','A','C','K','-','A','C','K',',',' ','c','l','s','I','D','=','C','F','G',',',' ']
            ++ ('m' :: 's' :: 'g' :: 'I' :: 'D' :: '=' :: (u1 ++ '-' :: (u2 ++ [')', '>']))) := by
        show ['<','U','B','X','('] ++ ['A','C','K','-','A','C','K']
            ++ [',',' ','c','l','s','I','D','=','C','F','G',',',' ','m','s','g','I','D','=']
            ++ (u1 ++ '-' :: u2) ++ [')','>'] = _
        simp [List.append_assoc]
      rw [harr, hskip, hlit]
    · have hskip := search_msg_id_append_no_m
        ['<','U','B','X','(','A','C','K','-','N','A','K',',',' ','c','l','s','I','D','=','C','F','G',',',' ']
        ('m' :: 's' :: 'g' :: 'I' :: 'D' :: '=' :: (u1 ++ '-' :: (u2 ++ [')', '>'])))
        (by decide)
      have harr : ublox_ack_frame_str "ACK-NAK".data (u1 ++ '-' :: u2)
          = ['<','U','B','X','(','A','C','K','-','N','A','K',',',' ','c','l','s','I','D','=','C','F','G',',',' ']
            ++ ('m' :: 's' :: 'g' :: 'I' :: 'D' :: '=' :: (u1 ++ '-' :: (u2 ++ [')', '>']))) := by
        show ['<','U','B','X','('] ++ ['A','C','K','-','N','A','K']
            ++ [',',' ','c','l','s','I','D','=','C','F','G',',',' ','m','s','g','I','D','=']
            ++ (u1 ++ '-' :: u2) ++ [')','>'] = _
        simp [List.append_assoc]
      rw [harr, hskip, hlit]
  simp [send_message_to_ublox_gnss_receiver, is_ack_message_correct, hsearch]

/-- C9 witness: a negative acknowledgement (`ACK-NAK`) of a `CFG-VALSET`
command is accepted as success. -/
theorem spec_C9_nak_indistinguishable_from_ack_witness :
    ("CFG".data ≠ [] ∧ "VALSET".data ≠ []
      ∧ ("ACK-NAK".data = "ACK-ACK".data ∨ "ACK-NAK".data = "ACK-NAK".data))
  ∧ send_message_to_ublox_gnss_receiver
      ⟨"CFG".data ++ '-' :: "VALSET".data, [181, 98]⟩
      (ublox_ack_frame_str "ACK-NAK".data ("CFG".data ++ '-' :: "VALSET".data) :: [])
      = some ([181, 98], .ok (), []) :=
  ⟨⟨by decide, by decide, Or.inr rfl⟩,
   spec_C9_nak_indistinguishable_from_ack "CFG".data "VALSET".data [181, 98]
     "ACK-NAK".data [] (by decide) (by decide) (by decide) (by decide) (Or.inr rfl)⟩

/-! ## Theorems: the RTCM3 correction relay (claim C3) -/

/-- The backlog-discard loop leaves the queue empty whatever it held. -/
theorem drain_rtcm3_queue_eq_nil (l : List Block) : drain_rtcm3_queue l = [] := by
  induction l with
  | nil => rfl
  | cons b rest ih => exact ih

/-- The forwarding inner loop empties the queue and appends its blocks, in
order and unchanged, to the connection. -/
theorem send_all_from_queue_eq (q w : List Block) :
    send_all_from_queue q w = ([], w ++ q) := by
  induction q generalizing w with
  | nil => simp [send_all_from_queue]
  | cons b rest ih => simp [send_all_from_queue, ih]

/-- Once the relay has observed the stop and exited, later events change
nothing on the connection. -/
theorem relay_fold_exited (events : List RelayEv) :
    ∀ q w, (events.foldl relay_step ⟨q, w, false, true⟩).written = w := by
  induction events with
  | nil => intro q w; rfl
  | cons e rest ih =>
    intro q w
    cases e with
    | enq b =>
      have hstep : relay_step ⟨q, w, false, true⟩ (.enq b)
          = ⟨q ++ [b], w, false, true⟩ := by
        simp [relay_step, relay_quiesce]
      simp only [List.foldl_cons]
      rw [hstep]
      exact ih (q ++ [b]) w
    | stop =>
      have hstep : relay_step ⟨q, w, false, true⟩ .stop = ⟨q, w, false, true⟩ := by
        simp [relay_step, relay_quiesce]
      simp only [List.foldl_cons]
      rw [hstep]
      exact ih q w

/-- While running with a drained queue, the relay appends exactly the
blocks enqueued before the first stop, in FIFO order. -/
theorem relay_fold_running (events : List RelayEv) :
    ∀ w, (events.foldl relay_step ⟨[], w, true, false⟩).written
      = w ++ blocks_before_stop events := by
  induction events with
  | nil => intro w; simp [blocks_before_stop]
  | cons e rest ih =>
    intro w
    cases e with
    | enq b =>
      have hstep : relay_step ⟨[], w, true, false⟩ (.enq b)
          = ⟨[], w ++ [b], true, false⟩ := by
        simp [relay_step, relay_quiesce, send_all_from_queue_eq]
      simp only [List.foldl_cons]
      rw [hstep, ih (w ++ [b])]
      simp [blocks_before_stop]
    | stop =>
      have hstep : relay_step ⟨[], w, true, false⟩ .stop = ⟨[], w, false, true⟩ := by
        simp [relay_step, relay_quiesce]
      simp only [List.foldl_cons]
      rw [hstep, relay_fold_exited rest [] w]
      simp [blocks_before_stop]

/-- C3: at the moment `accept()` completes the relay has discarded every
block queued before acceptance (the queue is drained with nothing written,
second and third conjuncts); thereafter the connection receives exactly
the blocks enqueued while the run flag is active — whatever the
pre-acceptance backlog was — in FIFO order, each block whole and
verbatim, and nothing enqueued after the stop (first conjunct, for every
serialized event interleaving). -/
theorem spec_C3_relay_discards_backlog_then_fifo (backlog : List Block)
    (events : List RelayEv) :
    (start_rtcm3_tcp_server_streaming backlog events).written
      = blocks_before_stop events
  ∧ (relay_accept backlog).rtcm3_queue = []
  ∧ (relay_accept backlog).written = [] := by
  refine ⟨?_, drain_rtcm3_queue_eq_nil backlog, rfl⟩
  unfold start_rtcm3_tcp_server_streaming relay_accept
  rw [drain_rtcm3_queue_eq_nil]
  simpa using relay_fold_running events []

/-! ## Theorems: fixed-mode configuration layout (claim C8) -/

/-- C8: building the fixed-mode command runs the Positioning Encoder
exactly three times — on the altitude with scale `10 ^ 2` and 1 decimal
place, and on the latitude and the longitude each with scale `10 ^ 7` and
2 decimal places — and lays the payload out in the fixed insertion order:
mode, position type, accuracy, the height pair, the latitude pair, the
longitude pair (key order restated by the second conjunct). -/
theorem spec_C8_fixed_mode_payload_layout (position : Position)
    (accuracy_limit_millimeters : ℤ) :
    (get_fixed_mode_for_ublox_gnss_receiver position accuracy_limit_millimeters).cfgData
      = [("CFG_TMODE_MODE", 2),
         ("CFG_TMODE_POS_TYPE", 1),
         ("CFG_TMODE_FIXED_POS_ACC",
           get_internal_accuracy_limit_value accuracy_limit_millimeters),
         ("CFG_TMODE_HEIGHT",
           (value_to_precision_integers position.altitude_meters (10 ^ 2) 1).1),
         ("CFG_TMODE_HEIGHT_HP",
           (value_to_precision_integers position.altitude_meters (10 ^ 2) 1).2),
         ("CFG_TMODE_LAT",
           (value_to_precision_integers position.latitude_degrees (10 ^ 7) 2).1),
         ("CFG_TMODE_LAT_HP",
           (value_to_precision_integers position.latitude_degrees (10 ^ 7) 2).2),
         ("CFG_TMODE_LON",
           (value_to_precision_integers position.longitude_degrees (10 ^ 7) 2).1),
         ("CFG_TMODE_LON_HP",
           (value_to_precision_integers position.longitude_degrees (10 ^ 7) 2).2)]
  ∧ (get_fixed_mode_for_ublox_gnss_receiver position
        accuracy_limit_millimeters).cfgData.map Prod.fst
      = ["CFG_TMODE_MODE", "CFG_TMODE_POS_TYPE", "CFG_TMODE_FIXED_POS_ACC",
         "CFG_TMODE_HEIGHT", "CFG_TMODE_HEIGHT_HP", "CFG_TMODE_LAT",
         "CFG_TMODE_LAT_HP", "CFG_TMODE_LON", "CFG_TMODE_LON_HP"] :=
  ⟨rfl, rfl⟩

/-! ## Concrete instantiations of the hypothesis-free claim theorems -/

/-- C1 at a concrete command and a concrete malformed acknowledgement
frame. -/
theorem spec_C1_send_ack_correlation_witness :
    ∃ out : Except ProtocolError Unit,
      send_message_to_ublox_gnss_receiver ⟨"CFG-CFG".data, [181, 98, 6]⟩
          ("garbage".data :: [])
        = some ([181, 98, 6], out, [])
    ∧ (out = .ok () ↔ search_msg_id "garbage".data = some "CFG-CFG".data)
    ∧ (out = .error .MalformedAck ↔ search_msg_id "garbage".data = none)
    ∧ (out = .error .AckMismatch ↔
        ∃ g, search_msg_id "garbage".data = some g ∧ g ≠ "CFG-CFG".data) :=
  spec_C1_send_ack_correlation ⟨"CFG-CFG".data, [181, 98, 6]⟩ "garbage".data []

/-- C3 at a concrete backlog and event interleaving. -/
theorem spec_C3_relay_discards_backlog_then_fifo_witness :
    (start_rtcm3_tcp_server_streaming [[1, 2], [3]]
        [.enq [9], .enq [8, 8], .stop, .enq [7]]).written
      = blocks_before_stop [.enq [9], .enq [8, 8], .stop, .enq [7]]
  ∧ (relay_accept [[1, 2], [3]]).rtcm3_queue = []
  ∧ (relay_accept [[1, 2], [3]]).written = [] :=
  spec_C3_relay_discards_backlog_then_fifo [[1, 2], [3]]
    [.enq [9], .enq [8, 8], .stop, .enq [7]]

/-- C4 at the repository's pinned test altitude with the altitude call
site's scale and decimal places. -/
theorem spec_C4_positioning_encoder_algorithm_witness :
    value_to_precision_integers (2153 / 10 : ℚ) (10 ^ 2) 1
      = positioning_encoder_spec (2153 / 10 : ℚ) (10 ^ 2) 1
  ∧ (value_to_precision_integers (2153 / 10 : ℚ) (10 ^ 2) 1).1
      = rat_trunc ((2153 / 10 : ℚ) * ((10 ^ 2 : ℤ) : ℚ))
  ∧ ∀ n : ℤ, round_half_to_even ((n : ℚ) + 1 / 2) = if 2 ∣ n then n else n + 1 :=
  spec_C4_positioning_encoder_algorithm (2153 / 10 : ℚ) (10 ^ 2) 1

/-- C8 at the repository's pinned test position and default accuracy
limit. -/
theorem spec_C8_fixed_mode_payload_layout_witness :
    (get_fixed_mode_for_ublox_gnss_receiver
        ⟨486467596667 / 10 ^ 10, 16791555 / 10 ^ 6, 2153 / 10⟩ 50000).cfgData
      = [("CFG_TMODE_MODE", 2),
         ("CFG_TMODE_POS_TYPE", 1),
         ("CFG_TMODE_FIXED_POS_ACC", get_internal_accuracy_limit_value 50000),
         ("CFG_TMODE_HEIGHT",
           (value_to_precision_integers
             (Position.altitude_meters
               ⟨486467596667 / 10 ^ 10, 16791555 / 10 ^ 6, 2153 / 10⟩)
             (10 ^ 2) 1).1),
         ("CFG_TMODE_HEIGHT_HP",
           (value_to_precision_integers
             (Position.altitude_meters
               ⟨486467596667 / 10 ^ 10, 16791555 / 10 ^ 6, 2153 / 10⟩)
             (10 ^ 2) 1).2),
         ("CFG_TMODE_LAT",
           (value_to_precision_integers
             (Position.latitude_degrees
               ⟨486467596667 / 10 ^ 10, 16791555 / 10 ^ 6, 2153 / 10⟩)
             (10 ^ 7) 2).1),
         ("CFG_TMODE_LAT_HP",
           (value_to_precision_integers
             (Position.latitude_degrees
               ⟨486467596667 / 10 ^ 10, 16791555 / 10 ^ 6, 2153 / 10⟩)
             (10 ^ 7) 2).2),
         ("CFG_TMODE_LON",
           (value_to_precision_integers
             (Position.longitude_degrees
               ⟨486467596667 / 10 ^ 10, 16791555 / 10 ^ 6, 2153 / 10⟩)
             (10 ^ 7) 2).1),
         ("CFG_TMODE_LON_HP",
           (value_to_precision_integers
             (Position.longitude_degrees
               ⟨486467596667 / 10 ^ 10, 16791555 / 10 ^ 6, 2153 / 10⟩)
             (10 ^ 7) 2).2)]
  ∧ (get_fixed_mode_for_ublox_gnss_receiver
        ⟨486467596667 / 10 ^ 10, 16791555 / 10 ^ 6, 2153 / 10⟩ 50000).cfgData.map
        Prod.fst
      = ["CFG_TMODE_MODE", "CFG_TMODE_POS_TYPE", "CFG_TMODE_FIXED_POS_ACC",
         "CFG_TMODE_HEIGHT", "CFG_TMODE_HEIGHT_HP", "CFG_TMODE_LAT",
         "CFG_TMODE_LAT_HP", "CFG_TMODE_LON", "CFG_TMODE_LON_HP"] :=
  spec_C8_fixed_mode_payload_layout
    ⟨486467596667 / 10 ^ 10, 16791555 / 10 ^ 6, 2153 / 10⟩ 50000

end UbxRtkBase
